import Mathlib

/-!
Verification development for the agent execution layer of an ARC-AGI-3
agent harness.  The Python sources (`agents/agent.py`,
`agents/templates/random_agent.py`) are shallowly embedded: pure
functions become Lean functions, the mutable agent object becomes an
explicit state record threaded through the operations, network I/O
becomes explicit inputs (the response body of each HTTP call is a
parameter), and fallible operations return `Option`.

The data-model module `structs.py` (defining `GameState`, `GameAction`,
`FrameData`) and `recorder.py` (defining `Recorder`) are declared by the
spec and used by the embedded code but their source is not available;
those definitions are modelled from the spec and are marked as such.
-/

/-- JSON-like values: request/response bodies and recorder entries. -/
inductive JVal where
  | null : JVal
  | bool : Bool → JVal
  | num  : Int → JVal
  | str  : String → JVal
  | arr  : List JVal → JVal
  | obj  : List (String × JVal) → JVal

/-- Lookup of a key in a JSON object's key/value list (`d[k]` /
`d.get(k)` on a Python dict). -/
def lookupKey (kvs : List (String × JVal)) (k : String) : Option JVal :=
  (kvs.find? (fun p => p.1 == k)).map (fun p => p.2)

/-- Dict assignment `d[k] = v`: any previous binding of `k` is replaced.
(Python keeps the original position of an existing key; only the
key-to-value mapping matters here, so the updated binding is appended.) -/
def setKey (k : String) (v : JVal) (kvs : List (String × JVal)) :
    List (String × JVal) :=
  kvs.filter (fun p => p.1 != k) ++ [(k, v)]

/-- The Python `in` operator applied to a parsed JSON value, as in the
`"error" in r.json()` check of `do_action_request`: key membership for
an object, element equality for an array, substring test for a string;
for `null`, a number or a boolean Python raises TypeError, modelled as
`none`. -/
def jsonContains (k : String) : JVal → Option Bool
  | .obj kvs => some (kvs.any (fun p => p.1 == k))
  | .arr xs => some (xs.any (fun x => match x with
      | .str s => s == k
      | _ => false))
  | .str s => some ((s.splitOn k).length != 1)
  | .null => none
  | .bool _ => none
  | .num _ => none

/-- Modelled from the spec: the `GameState` enum of `structs.py` (not
under src/): lifecycle states of one game. -/
inductive GameState where
  | NOT_PLAYED | IN_PROGRESS | WIN | GAME_OVER
deriving DecidableEq

/-- Name of a `GameState`, as serialized in frame JSON. -/
def GameState.name : GameState → String
  | .NOT_PLAYED => "NOT_PLAYED"
  | .IN_PROGRESS => "IN_PROGRESS"
  | .WIN => "WIN"
  | .GAME_OVER => "GAME_OVER"

/-- Parse a `GameState` from its serialized name. -/
def GameState.from_name : String → Option GameState
  | "NOT_PLAYED" => some .NOT_PLAYED
  | "IN_PROGRESS" => some .IN_PROGRESS
  | "WIN" => some .WIN
  | "GAME_OVER" => some .GAME_OVER
  | _ => none

/-- Modelled from the spec: the members of the `GameAction` enum of
`structs.py` (not under src/): `RESET`, five simple actions, one complex
action. -/
inductive ActionId where
  | RESET | ACTION1 | ACTION2 | ACTION3 | ACTION4 | ACTION5 | ACTION6
deriving DecidableEq

/-- Modelled from the spec: enum value of each action. -/
def ActionId.value : ActionId → Int
  | .RESET => 0
  | .ACTION1 => 1
  | .ACTION2 => 2
  | .ACTION3 => 3
  | .ACTION4 => 4
  | .ACTION5 => 5
  | .ACTION6 => 6

/-- Name of an action, as used in `/api/cmd/{ACTION_NAME}` and in LLM
function/tool schemas. -/
def ActionId.name : ActionId → String
  | .RESET => "RESET"
  | .ACTION1 => "ACTION1"
  | .ACTION2 => "ACTION2"
  | .ACTION3 => "ACTION3"
  | .ACTION4 => "ACTION4"
  | .ACTION5 => "ACTION5"
  | .ACTION6 => "ACTION6"

/-- Modelled from the spec: `GameAction.from_name`; unknown names raise,
modelled as `none`. -/
def ActionId.from_name : String → Option ActionId
  | "RESET" => some .RESET
  | "ACTION1" => some .ACTION1
  | "ACTION2" => some .ACTION2
  | "ACTION3" => some .ACTION3
  | "ACTION4" => some .ACTION4
  | "ACTION5" => some .ACTION5
  | "ACTION6" => some .ACTION6
  | _ => none

/-- Modelled from the spec: `value` of an action when decoded from a
recorded frame (`action_input.id`). -/
def ActionId.from_value : Int → Option ActionId
  | 0 => some .RESET
  | 1 => some .ACTION1
  | 2 => some .ACTION2
  | 3 => some .ACTION3
  | 4 => some .ACTION4
  | 5 => some .ACTION5
  | 6 => some .ACTION6
  | _ => none

/-- Modelled from the spec: simple actions carry no payload beyond the
game id; `RESET` and `ACTION1`..`ACTION5` are the simple actions. -/
def ActionId.is_simple : ActionId → Bool
  | .ACTION6 => false
  | _ => true

/-- Modelled from the spec: the one complex action (coordinate payload)
is `ACTION6`. -/
def ActionId.is_complex : ActionId → Bool
  | .ACTION6 => true
  | _ => false

/-- A game action as held by the agent: its enum member, the payload set
by `set_data` (dumped by `action_data.model_dump()`), and the optional
free-form `reasoning` attached before submission. -/
structure GameAction where
  id : ActionId
  action_data : List (String × JVal) := []
  reasoning : Option JVal := none

/-- Modelled from the spec: `GameAction.set_data` stores the payload
dict on the action. -/
def GameAction.set_data (a : GameAction) (d : List (String × JVal)) :
    GameAction :=
  { a with action_data := d }

/-- The `action_input` echoed back in a frame: the action that produced
the frame and its payload. -/
structure ActionInput where
  id : ActionId := .RESET
  data : List (String × JVal) := []

/-- Modelled from the spec: `FrameData` of `structs.py` (not under
src/): one server response unit.  All fields default (the seed frame is
built as `FrameData(score=0)`). -/
structure FrameData where
  game_id : String := ""
  guid : String := ""
  frame : List (List (List Int)) := []
  state : GameState := .NOT_PLAYED
  score : Int := 0
  action_input : ActionInput := {}

/-- Parse an optional string field: absent keys take the default,
present keys must hold a string. -/
def parseStrField (kvs : List (String × JVal)) (k : String)
    (dflt : String) : Option String :=
  match lookupKey kvs k with
  | none => some dflt
  | some (.str s) => some s
  | some _ => none

/-- Parse an optional integer field. -/
def parseIntField (kvs : List (String × JVal)) (k : String)
    (dflt : Int) : Option Int :=
  match lookupKey kvs k with
  | none => some dflt
  | some (.num n) => some n
  | some _ => none

/-- Parse one row of a grid: a JSON array of integers. -/
def parseRow : JVal → Option (List Int)
  | .arr cells => cells.mapM (fun c => match c with
      | .num n => some n
      | _ => none)
  | _ => none

/-- Parse one grid: a JSON array of rows. -/
def parseGrid : JVal → Option (List (List Int))
  | .arr rows => rows.mapM parseRow
  | _ => none

/-- Parse the `frame` field: a JSON array of grids. -/
def parseFrameField (kvs : List (String × JVal)) :
    Option (List (List (List Int))) :=
  match lookupKey kvs "frame" with
  | none => some []
  | some (.arr grids) => grids.mapM parseGrid
  | some _ => none

/-- Parse the `state` field into a `GameState`. -/
def parseStateField (kvs : List (String × JVal)) : Option GameState :=
  match lookupKey kvs "state" with
  | none => some .NOT_PLAYED
  | some (.str s) => GameState.from_name s
  | some _ => none

/-- Parse the `action_input` field. -/
def parseActionInputField (kvs : List (String × JVal)) :
    Option ActionInput :=
  match lookupKey kvs "action_input" with
  | none => some {}
  | some (.obj akvs) => do
      let i ← match lookupKey akvs "id" with
        | none => some ActionId.RESET
        | some (.num n) => ActionId.from_value n
        | some _ => none
      let d ← match lookupKey akvs "data" with
        | none => some []
        | some (.obj dkvs) => some dkvs
        | some _ => none
      some { id := i, data := d }
  | some _ => none

/-- Modelled from the spec: `FrameData.model_validate` (pydantic schema
validation of `structs.py`, not under src/).  A non-object body or an
ill-typed field fails validation (`none`); absent fields take their
defaults. -/
def FrameData.model_validate (j : JVal) : Option FrameData :=
  match j with
  | .obj kvs => do
      let gid ← parseStrField kvs "game_id" ""
      let guid ← parseStrField kvs "guid" ""
      let grids ← parseFrameField kvs
      let st ← parseStateField kvs
      let sc ← parseIntField kvs "score" 0
      let ai ← parseActionInputField kvs
      some { game_id := gid, guid := guid, frame := grids, state := st,
             score := sc, action_input := ai }
  | _ => none

/-- Serialization of a frame (`frame.model_dump_json()`), used when the
agent records a frame. -/
def FrameData.model_dump (f : FrameData) : JVal :=
  .obj [("game_id", .str f.game_id),
        ("guid", .str f.guid),
        ("frame", .arr (f.frame.map (fun g =>
            .arr (g.map (fun row => .arr (row.map (fun c => .num c))))))),
        ("state", .str f.state.name),
        ("score", .num f.score),
        ("action_input", .obj [("id", .num f.action_input.id.value),
                               ("data", .obj f.action_input.data)])]

namespace Recorder

/-- Modelled from the spec: `Recorder.record(entry)` appends one entry
to the append-only session log, never rewriting prior entries. -/
def record (log : List JVal) (entry : JVal) : List JVal :=
  log ++ [entry]

end Recorder

/-- The mutable state of one `Agent` instance (`agent.py`), made
explicit.  `recorder` is `none` when the agent has no recorder attribute
(`record=False`, so `hasattr(self, "recorder")` is false), otherwise the
log of recorded entries.  `is_playback` embeds the
`type(self) is Playback` test. -/
structure AgentSt where
  card_id : String
  game_id : String
  guid : String
  frames : List FrameData
  action_counter : Nat
  _cleanup : Bool
  recorder : Option (List JVal)
  is_playback : Bool

namespace Agent

/-- State of a freshly constructed agent (`Agent.__init__`): empty guid,
seed frame `FrameData(score=0)`, counter 0, cleanup guard armed. -/
def init (card_id game_id : String) (record : Bool) (is_playback : Bool) :
    AgentSt :=
  { card_id := card_id, game_id := game_id, guid := "",
    frames := [{ score := 0 }], action_counter := 0, _cleanup := true,
    recorder := if record then some [] else none,
    is_playback := is_playback }

/-- The latest frame `self.frames[-1]`.  The history starts non-empty
and is append-only, so the default is never used. -/
def latest_frame (st : AgentSt) : FrameData :=
  st.frames.getLastD {}

/-- `Agent.append_frame`: append the frame to history, adopt its guid
when non-empty, and record it unless the agent is a Playback or has no
recorder. -/
def append_frame (st : AgentSt) (frame : FrameData) : AgentSt :=
  let st := { st with frames := st.frames ++ [frame] }
  let st := if frame.guid != "" then { st with guid := frame.guid } else st
  match st.recorder with
  | some log =>
      if !st.is_playback then
        { st with recorder := some (Recorder.record log frame.model_dump) }
      else st
  | none => st

/-- The request body (`data`) built by `Agent.do_action_request` before
posting to `/api/cmd/{action.name}`: the action payload, plus `card_id`
for `RESET`, plus `guid` once known, plus optional `reasoning`. -/
def do_action_request_data (st : AgentSt) (action : GameAction) :
    List (String × JVal) :=
  let data := action.action_data
  let data := if action.id == .RESET then
      setKey "card_id" (.str st.card_id) data
    else data
  let data := if st.guid != "" then setKey "guid" (.str st.guid) data
    else data
  match action.reasoning with
  | some r => setKey "reasoning" r data
  | none => data

/-- The value of `r.json()` as handed to the rest of
`do_action_request`: after the POST the code evaluates
`"error" in r.json()`, which raises TypeError when the body is `null`,
a number or a boolean (modelled `none`); a present `error` field is
only logged, so otherwise the body is passed on unchanged. -/
def do_action_request_json (body : JVal) : Option JVal :=
  match jsonContains "error" body with
  | none => none
  | some _ => some body

/-- `Agent.take_action`: obtain `frame_data` from
`do_action_request(action).json()` (a TypeError raised by the `error`
membership check propagates, outer `none`), then validate it into a
frame; a `ValidationError` is caught and yields the Python `None`
(`some none`). -/
def take_action (frame_data : JVal) : Option (Option FrameData) :=
  match do_action_request_json frame_data with
  | none => none
  | some body =>
      match FrameData.model_validate body with
      | some frame => some (some frame)
      | none => some none

/-- One iteration of the body of the `while` loop in `Agent.main`,
given the response body the server returned for this turn's request:
`none` when the turn raises (the exception aborts the loop without
incrementing), otherwise the updated state — a valid frame is appended,
a validation failure skips the append, and either way `action_counter`
is incremented. -/
def mainStep (st : AgentSt) (resp : JVal) : Option AgentSt :=
  match take_action resp with
  | none => none
  | some r =>
      let st1 := match r with
        | some frame => append_frame st frame
        | none => st
      some { st1 with action_counter := st.action_counter + 1 }

/-- The `while` loop of `Agent.main`: loop while not `is_done` and
`action_counter <= MAX_ACTIONS`.  The policy (`is_done`,
`choose_action`) and the environment (`env`, giving the response body
for each turn's submitted action) are parameters.  `none` means an
exception (the TypeError of the `error` membership check) escaped the
loop. -/
def mainLoop (MAX_ACTIONS : Nat)
    (is_done : List FrameData → FrameData → Bool)
    (choose_action : List FrameData → FrameData → GameAction)
    (env : Nat → GameAction → JVal) (st : AgentSt) : Option AgentSt :=
  if _h : ¬ is_done st.frames (latest_frame st) ∧
      st.action_counter ≤ MAX_ACTIONS then
    let action := choose_action st.frames (latest_frame st)
    match take_action (env st.action_counter action) with
    | none => none
    | some r =>
        let st1 := match r with
          | some frame => append_frame st frame
          | none => st
        mainLoop MAX_ACTIONS is_done choose_action env
          { st1 with action_counter := st.action_counter + 1 }
  else some st
termination_by MAX_ACTIONS + 1 - st.action_counter
decreasing_by
  simp
  omega

/-- `Agent.cleanup`: guarded by the single-use `_cleanup` flag; on the
first call it records the trailing summary entry (the scorecard) when a
recorder exists and the agent is not a Playback.  `summary` is the entry
recorded (either `scorecard.get(game_id)` or the body fetched by
`get_scorecard()`). -/
def cleanup (st : AgentSt) (summary : JVal) : AgentSt :=
  if st._cleanup then
    let st := { st with _cleanup := false }
    match st.recorder with
    | some log =>
        if !st.is_playback then
          { st with recorder := some (Recorder.record log summary) }
        else st
    | none => st
  else st

/-- `Agent.main`: run the main loop, then `cleanup`.  An exception
escaping the loop propagates out of `main` before `cleanup` runs
(`none`). -/
def main (MAX_ACTIONS : Nat)
    (is_done : List FrameData → FrameData → Bool)
    (choose_action : List FrameData → FrameData → GameAction)
    (env : Nat → GameAction → JVal) (summary : JVal) (st : AgentSt) :
    Option AgentSt :=
  match mainLoop MAX_ACTIONS is_done choose_action env st with
  | none => none
  | some st1 => some (cleanup st1 summary)

end Agent

namespace Playback

/-- `Playback.filter_actions`: keep the recorded entries that have a
`data` payload containing a `game_id`.  (Recorded `data` payloads are
JSON objects; membership is key membership.) -/
def filter_actions (log : List JVal) : List JVal :=
  log.filter (fun a => match a with
    | .obj kvs => match lookupKey kvs "data" with
        | some (.obj dkvs) => dkvs.any (fun p => p.1 == "game_id")
        | _ => false
    | _ => false)

/-- `Playback.is_done`: the replay is finished once the cursor
(`action_counter`) has consumed every recorded action. -/
def is_done (recorded_actions : List JVal) (action_counter : Nat) : Bool :=
  decide (recorded_actions.length ≤ action_counter)

/-- `Playback.append_frame`, overwritten so as not to double record:
append to history and adopt a non-empty guid, with no recorder call. -/
def append_frame (st : AgentSt) (frame : FrameData) : AgentSt :=
  let st := { st with frames := st.frames ++ [frame] }
  if frame.guid != "" then { st with guid := frame.guid } else st

end Playback

/-- The `GameAction` enum members in declaration order. -/
def allActions : List ActionId :=
  [.RESET, .ACTION1, .ACTION2, .ACTION3, .ACTION4, .ACTION5, .ACTION6]

/-- The list comprehension `[a for a in GameAction if a is not
GameAction.RESET]` in `Random.choose_action`. -/
def nonResetActions : List ActionId :=
  allActions.filter (fun a => a != .RESET)

namespace Random

/-- `Random.choose_action` (`agent.py`): `RESET` when the game is not
started or over, otherwise a uniformly chosen non-RESET action.  The
random draws are explicit inputs: `pick` selects from the non-RESET
list, `rx`/`ry` are the `random.randint(0, 63)` coordinate draws
(modelled as `_ % 64`). -/
def choose_action (game_id : String) (pick rx ry : Nat)
    (latest_frame : FrameData) : GameAction :=
  let action : GameAction :=
    if latest_frame.state ∈ [GameState.NOT_PLAYED, GameState.GAME_OVER]
    then { id := .RESET }
    else { id := nonResetActions.getD (pick % nonResetActions.length)
            .ACTION1 }
  if action.id.is_simple then
    let action := action.set_data [("game_id", .str game_id)]
    { action with reasoning := some (.str
        ("RNG told me to pick " ++ toString action.id.value)) }
  else if action.id.is_complex then
    let action := action.set_data
      [("game_id", .str game_id),
       ("x", .num (Int.ofNat (rx % 64))),
       ("y", .num (Int.ofNat (ry % 64)))]
    { action with reasoning := some (.obj
        [("desired_action", .str (toString action.id.value)),
         ("my_reason", .str "RNG said so!")]) }
  else action

end Random

/-- The JSON `arguments` string of a function/tool call, as later fed to
`json.loads`: absent or empty (falsy), unparsable (raises, caught and
replaced by an empty dict), or parsed into a dict. -/
inductive ArgSpec where
  | absent | unparsable
  | parsed : List (String × JVal) → ArgSpec

/-- One tool call of an assistant chat response
(`message.tool_calls[i]`, flattening `.function.name` /
`.function.arguments`). -/
structure ToolCall where
  id : String
  function_name : String
  arguments : ArgSpec

/-- A legacy function call of an assistant chat response
(`message.function_call`). -/
structure FuncCall where
  name : String
  arguments : ArgSpec

/-- One conversation message: the dicts built in `LLM.choose_action`
and the assistant message objects returned by the client, unified.
Unused fields keep their defaults. -/
structure Message where
  role : String
  content : String := ""
  name : String := ""
  tool_call_id : String := ""
  tool_calls : List ToolCall := []
  function_call : Option FuncCall := none

/-- One chat-completions response from the model client: the parts of
`response.choices[0].message` and `response.usage` that the agent
reads. -/
structure ChatResponse where
  content : String := ""
  total_tokens : Nat := 0
  tool_calls : List ToolCall := []
  function_call : Option FuncCall := none

/-- Class-level configuration of an `LLM` agent variant. -/
structure LLMConfig where
  DO_OBSERVATION : Bool := true
  MODEL_REQUIRES_TOOLS : Bool := false
  MESSAGE_LIMIT : Nat := 10

/-- State of an `LLM` agent: the base agent state plus the conversation
buffer, token counter and latest tool-call id. -/
structure LLMSt where
  agent : AgentSt
  messages : List Message
  token_counter : Nat
  _latest_tool_call_id : String

namespace LLM

/-- The Python slice `xs[-n:]`.  For `n = 0` the slice is `xs[0:]`, the
whole list (the `-0` quirk), otherwise the last `n` elements. -/
def pySliceLast (n : Nat) (xs : List Message) : List Message :=
  if n == 0 then xs else xs.drop (xs.length - n)

/-- The `while` loop of `LLM.push_message` popping leading `tool`
messages.  When every message is popped the Python loop re-evaluates
`self.messages[0]` on an empty list and raises IndexError, modelled as
`none`. -/
def popToolLoop : List Message → Option (List Message)
  | [] => none
  | m :: ms => if m.role == "tool" then popToolLoop ms else some (m :: ms)

/-- `LLM.push_message`: append, FIFO-trim to `MESSAGE_LIMIT`, then (for
tool-calling models) pop leading orphaned `tool` messages. -/
def push_message (cfg : LLMConfig) (messages : List Message)
    (message : Message) : Option (List Message) :=
  let msgs := messages ++ [message]
  let msgs := if cfg.MESSAGE_LIMIT < msgs.length then
      pySliceLast cfg.MESSAGE_LIMIT msgs
    else msgs
  if cfg.MODEL_REQUIRES_TOOLS then popToolLoop msgs else some msgs

/-- `LLM.track_tokens`: add to the token counter and record a
token-usage entry (when a recorder exists and not in playback). -/
def track_tokens (st : LLMSt) (tokens : Nat) (message : String) : LLMSt :=
  let st := { st with token_counter := st.token_counter + tokens }
  match st.agent.recorder with
  | some log =>
      if !st.agent.is_playback then
        let entry : JVal := .obj
          [("tokens", .num (Int.ofNat tokens)),
           ("total_tokens", .num (Int.ofNat st.token_counter)),
           ("assistant", .str message)]
        { st with agent :=
            { st.agent with recorder := some (Recorder.record log entry) } }
      else st
  | none => st

/-- The user prompt built by `LLM.build_user_prompt` (its literal text,
excluded from the verified core, is abbreviated here). -/
def build_user_prompt : String :=
  "# CONTEXT: You are an agent playing a dynamic game. # TURN: Call exactly one action."

/-- `LLM.pretty_print_3d`: render the 3-D frame grid as text. -/
def pretty_print_3d (array_3d : List (List (List Int))) : String :=
  String.intercalate "\n" ((array_3d.enum.map (fun p =>
    ("Grid " ++ toString p.1 ++ ":")
      :: p.2.map (fun row => "  " ++ toString row) ++ [""])).flatten)

/-- The function-response prompt built by `LLM.build_func_resp_prompt`
from the latest frame (literal text abbreviated). -/
def build_func_resp_prompt (latest_frame : FrameData) : String :=
  "# State: " ++ latest_frame.state.name
    ++ " # Score: " ++ toString latest_frame.score
    ++ " # Frame: " ++ pretty_print_3d latest_frame.frame
    ++ " # TURN: Reply with a few sentences of plain-text strategy observation about the frame to inform your next action."

/-- `LLM.choose_action`.  The two model-client calls (observation and
action) are explicit inputs `obs_response` / `act_response`; a raised
exception (no tool call, missing function call, IndexError inside
`push_message`, unknown action name) is `none`.  On the first turn
(empty message buffer) the agent manufactures the initial `RESET`
exchange and returns `RESET` without consulting the client. -/
def choose_action (cfg : LLMConfig) (st : LLMSt)
    (latest_frame : FrameData) (obs_response act_response : ChatResponse) :
    Option (GameAction × LLMSt) := do
  if st.messages.length == 0 then
    let message0 : Message := { role := "user", content := build_user_prompt }
    let ms0 ← push_message cfg st.messages message0
    let message1 : Message :=
      if cfg.MODEL_REQUIRES_TOOLS then
        { role := "assistant",
          tool_calls := [{ id := st._latest_tool_call_id,
                           function_name := ActionId.RESET.name,
                           arguments := .parsed [] }] }
      else
        { role := "assistant",
          function_call := some { name := "RESET", arguments := .parsed [] } }
    let ms1 ← push_message cfg ms0 message1
    let action : GameAction := { id := .RESET }
    let action := action.set_data [("game_id", .str st.agent.game_id)]
    return (action, { st with messages := ms1 })
  else
    let function_name := latest_frame.action_input.id.name
    let function_response := build_func_resp_prompt latest_frame
    let message2 : Message :=
      if cfg.MODEL_REQUIRES_TOOLS then
        { role := "tool", tool_call_id := st._latest_tool_call_id,
          content := function_response }
      else
        { role := "function", name := function_name,
          content := function_response }
    let ms2 ← push_message cfg st.messages message2
    let st := { st with messages := ms2 }
    let st ← if cfg.DO_OBSERVATION then do
        let st := track_tokens st obs_response.total_tokens
          obs_response.content
        let message3 : Message := { role := "assistant",
                                    content := obs_response.content }
        let ms3 ← push_message cfg st.messages message3
        pure { st with messages := ms3 }
      else pure st
    let message4 : Message := { role := "user", content := build_user_prompt }
    let ms4 ← push_message cfg st.messages message4
    let st := { st with messages := ms4 }
    let r ← if cfg.MODEL_REQUIRES_TOOLS then do
        let st := track_tokens st act_response.total_tokens ""
        let message5 : Message := { role := "assistant",
                                    tool_calls := act_response.tool_calls }
        match act_response.tool_calls with
        | [] => none
        | tool_call :: extra_tools => do
          let st := { st with _latest_tool_call_id := tool_call.id }
          let st ← extra_tools.foldlM (fun st tc => do
              let ms ← push_message cfg st.messages
                { role := "tool", tool_call_id := tc.id,
                  content := "Error: assistant can only call one action (tool) at a time. default to only the first chosen action." }
              pure { st with messages := ms }) st
          let ms5 ← push_message cfg st.messages message5
          pure (tool_call.function_name, tool_call.arguments,
                { st with messages := ms5 })
      else do
        let st := track_tokens st act_response.total_tokens ""
        match act_response.function_call with
        | none => none
        | some fc => do
          let message5 : Message := { role := "assistant",
                                      function_call := some fc }
          let ms5 ← push_message cfg st.messages message5
          pure (fc.name, fc.arguments, { st with messages := ms5 })
    match r with
    | (name, arguments, st) =>
      let data := match arguments with
        | .parsed d => d
        | _ => []
      let action_id ← ActionId.from_name name
      let action : GameAction := { id := action_id }
      let data := setKey "game_id" (.str st.agent.game_id) data
      return (action.set_data data, st)

end LLM

/-! ### Helper lemmas -/

theorem find?_filter_key_none (l : List (String × JVal)) (k : String) :
    (l.filter (fun p => p.1 != k)).find? (fun p => p.1 == k) = none := by
  induction l with
  | nil => rfl
  | cons p t ih =>
      by_cases hp : p.1 = k
      · have hb : (p.1 != k) = false := by simp [hp]
        rw [List.filter_cons, hb]
        simp only [Bool.false_eq_true, if_false]
        exact ih
      · have hb : (p.1 != k) = true := by simp [hp]
        have hq : (p.1 == k) = false := by simp [hp]
        rw [List.filter_cons, hb]
        simp only [if_true, cond_true, List.find?_cons, hq]
        exact ih

theorem find?_filter_key_other (l : List (String × JVal)) (k k' : String)
    (h : k' ≠ k) :
    (l.filter (fun p => p.1 != k)).find? (fun p => p.1 == k') =
      l.find? (fun p => p.1 == k') := by
  induction l with
  | nil => rfl
  | cons p t ih =>
      by_cases hp : p.1 = k
      · have hb : (p.1 != k) = false := by simp [hp]
        have hq : (p.1 == k') = false := by simp [hp, Ne.symm h]
        rw [List.filter_cons, hb]
        simp only [List.find?_cons, hq, cond_false]
        simpa using ih
      · have hb : (p.1 != k) = true := by simp [hp]
        rw [List.filter_cons, hb]
        simp only [if_true, cond_true, List.find?_cons]
        rcases hq : (p.1 == k') with _ | _
        · exact ih
        · rfl

theorem lookupKey_setKey_self (l : List (String × JVal)) (k : String)
    (v : JVal) : lookupKey (setKey k v l) k = some v := by
  unfold lookupKey setKey
  rw [List.find?_append, find?_filter_key_none]
  simp

theorem lookupKey_setKey_ne (l : List (String × JVal)) (k k' : String)
    (v : JVal) (h : k' ≠ k) :
    lookupKey (setKey k v l) k' = lookupKey l k' := by
  unfold lookupKey setKey
  rw [List.find?_append, find?_filter_key_other l k k' h]
  have h2 : List.find? (fun p => p.1 == k') [(k, v)] = none := by
    simp [Ne.symm h]
  rw [h2]
  rcases hf : l.find? (fun p => p.1 == k') with _ | p <;> simp

theorem cleanup_action_counter (st : AgentSt) (summary : JVal) :
    (Agent.cleanup st summary).action_counter = st.action_counter := by
  unfold Agent.cleanup
  rcases hc : st._cleanup <;> rcases hr : st.recorder <;>
    rcases hp : st.is_playback <;> simp [hc, hr, hp]

theorem popToolLoop_length_le (ms : List Message) :
    ∀ out, LLM.popToolLoop ms = some out → out.length ≤ ms.length := by
  induction ms with
  | nil => intro out h; cases h
  | cons m t ih =>
      intro out h
      unfold LLM.popToolLoop at h
      by_cases hr : (m.role == "tool") = true
      · rw [if_pos hr] at h
        exact (ih out h).trans (Nat.le_succ _)
      · rw [if_neg hr] at h
        cases h
        exact Nat.le_refl _

theorem popToolLoop_head_role (ms : List Message) :
    ∀ out, LLM.popToolLoop ms = some out →
      ∀ x ∈ out.head?, x.role ≠ "tool" := by
  induction ms with
  | nil => intro out h; cases h
  | cons m t ih =>
      intro out h
      unfold LLM.popToolLoop at h
      by_cases hr : (m.role == "tool") = true
      · rw [if_pos hr] at h
        exact ih out h
      · rw [if_neg hr] at h
        cases h
        intro x hx
        simp only [List.head?_cons, Option.mem_def, Option.some.injEq] at hx
        subst hx
        simpa using hr

theorem is_complex_iff (id : ActionId) :
    id.is_complex = true ↔ id = .ACTION6 := by
  cases id <;> simp [ActionId.is_complex]

theorem nonResetActions_eq :
    nonResetActions =
      [.ACTION1, .ACTION2, .ACTION3, .ACTION4, .ACTION5, .ACTION6] := by
  rfl

theorem nonReset_getD_ne (n : Nat) :
    nonResetActions.getD n .ACTION1 ≠ .RESET := by
  rw [nonResetActions_eq]
  rcases n with _ | _ | _ | _ | _ | _ | m
  · decide
  · decide
  · decide
  · decide
  · decide
  · decide
  · rw [List.getD_eq_default]
    · decide
    · simp

theorem random_choose_action_id (game_id : String) (pick rx ry : Nat)
    (latest : FrameData) :
    (Random.choose_action game_id pick rx ry latest).id =
      if latest.state ∈ [GameState.NOT_PLAYED, GameState.GAME_OVER]
      then .RESET
      else nonResetActions.getD (pick % nonResetActions.length) .ACTION1 := by
  unfold Random.choose_action
  by_cases h : latest.state ∈ [GameState.NOT_PLAYED, GameState.GAME_OVER]
  · simp [h, GameAction.set_data, ActionId.is_simple]
  · simp only [h, if_false]
    rcases hs : (nonResetActions.getD (pick % nonResetActions.length)
        .ACTION1).is_simple <;>
      rcases hc : (nonResetActions.getD (pick % nonResetActions.length)
        .ACTION1).is_complex <;>
      simp [h, hs, hc, GameAction.set_data]

theorem random_choose_action_complex_data (game_id : String)
    (pick rx ry : Nat) (latest : FrameData)
    (h : latest.state ∉ [GameState.NOT_PLAYED, GameState.GAME_OVER])
    (h6 : nonResetActions.getD (pick % nonResetActions.length) .ACTION1 =
      .ACTION6) :
    (Random.choose_action game_id pick rx ry latest).action_data =
      [("game_id", .str game_id),
       ("x", .num (Int.ofNat (rx % 64))),
       ("y", .num (Int.ofNat (ry % 64)))] := by
  unfold Random.choose_action
  dsimp only
  rw [if_neg h, h6]
  simp [ActionId.is_simple, ActionId.is_complex, GameAction.set_data]

theorem push_message_nil (cfg : LLMConfig) (m : Message)
    (h : (m.role == "tool") = false) :
    LLM.push_message cfg [] m = some [m] := by
  unfold LLM.push_message
  by_cases h0 : cfg.MESSAGE_LIMIT < 1
  · have hz : cfg.MESSAGE_LIMIT = 0 := by omega
    rcases hrt : cfg.MODEL_REQUIRES_TOOLS <;>
      simp [hz, LLM.pySliceLast, LLM.popToolLoop, hrt, h]
  · rcases hrt : cfg.MODEL_REQUIRES_TOOLS <;>
      simp [h0, LLM.popToolLoop, hrt, h]

theorem push_message_pair (cfg : LLMConfig) (m0 m1 : Message)
    (h0 : (m0.role == "tool") = false)
    (h1 : (m1.role == "tool") = false) :
    LLM.push_message cfg [m0] m1 = some [m0, m1] ∨
    LLM.push_message cfg [m0] m1 = some [m1] := by
  unfold LLM.push_message
  by_cases hL : cfg.MESSAGE_LIMIT < 2
  · rcases hz : cfg.MESSAGE_LIMIT with _ | k
    · left
      rcases hrt : cfg.MODEL_REQUIRES_TOOLS <;>
        simp [hz, LLM.pySliceLast, LLM.popToolLoop, hrt, h0, h1]
    · have hk : k = 0 := by omega
      subst hk
      right
      rcases hrt : cfg.MODEL_REQUIRES_TOOLS <;>
        simp [hz, LLM.pySliceLast, LLM.popToolLoop, hrt, h0, h1]
  · left
    rcases hrt : cfg.MODEL_REQUIRES_TOOLS <;>
      simp [hL, LLM.popToolLoop, hrt, h0, h1]

theorem append_frame_guid (st : AgentSt) (frame : FrameData) :
    (Agent.append_frame st frame).guid =
      (if frame.guid = "" then st.guid else frame.guid) := by
  unfold Agent.append_frame
  by_cases hg : frame.guid = "" <;> simp [hg] <;>
    rcases hr : st.recorder with _ | log <;> simp [hr] <;>
    rcases hp : st.is_playback <;> simp [hp]

theorem mainLoop_counter_le (MAX : Nat)
    (d : List FrameData → FrameData → Bool)
    (ch : List FrameData → FrameData → GameAction)
    (env : Nat → GameAction → JVal) :
    ∀ n (st : AgentSt), MAX + 1 - st.action_counter = n →
      st.action_counter ≤ MAX + 1 →
      ∀ st', Agent.mainLoop MAX d ch env st = some st' →
        st'.action_counter ≤ MAX + 1 := by
  intro n
  induction n with
  | zero =>
      intro st hf hle st' hml
      unfold Agent.mainLoop at hml
      rw [dif_neg] at hml
      · cases hml
        exact hle
      · intro hg
        have := hg.2
        omega
  | succ k ih =>
      intro st hf hle st' hml
      unfold Agent.mainLoop at hml
      by_cases hg : ¬ d st.frames (Agent.latest_frame st) = true ∧
          st.action_counter ≤ MAX
      · rw [dif_pos hg] at hml
        dsimp only at hml
        rcases hms : Agent.take_action (env st.action_counter
            (ch st.frames (Agent.latest_frame st))) with _ | r
        · rw [hms] at hml
          cases hml
        · rw [hms] at hml
          refine ih _ ?_ ?_ st' hml
          · simp
            omega
          · simp
            omega
      · rw [dif_neg hg] at hml
        cases hml
        exact hle

theorem mainLoop_counter_exact (MAX : Nat)
    (ch : List FrameData → FrameData → GameAction)
    (env : Nat → GameAction → JVal)
    (henv : ∀ k (a : GameAction), Agent.take_action (env k a) = some none) :
    ∀ n (st : AgentSt), MAX + 1 - st.action_counter = n →
      st.action_counter ≤ MAX + 1 →
      ∃ st', Agent.mainLoop MAX (fun _ _ => false) ch env st = some st' ∧
        st'.action_counter = MAX + 1 := by
  intro n
  induction n with
  | zero =>
      intro st hf hle
      refine ⟨st, ?_, by omega⟩
      unfold Agent.mainLoop
      rw [dif_neg]
      intro hg
      have := hg.2
      omega
  | succ k ih =>
      intro st hf hle
      obtain ⟨st', h1, h2⟩ :=
        ih { st with action_counter := st.action_counter + 1 }
          (by simp; omega) (by simp; omega)
      refine ⟨st', ?_, h2⟩
      unfold Agent.mainLoop
      rw [dif_pos ⟨by simp, by omega⟩]
      dsimp only
      rw [henv st.action_counter (ch st.frames (Agent.latest_frame st))]
      exact h1

/-! ### Claim theorems -/

/-- C7: a Playback agent never writes replayed frames back to a
recorder: `Playback.append_frame` appends the frame to history and
adopts its (non-empty) guid, and leaves the recorder untouched. -/
theorem playback_append_frame_no_recording (st : AgentSt)
    (frame : FrameData) :
    (Playback.append_frame st frame).recorder = st.recorder ∧
    (Playback.append_frame st frame).frames = st.frames ++ [frame] ∧
    (Playback.append_frame st frame).guid =
      (if frame.guid = "" then st.guid else frame.guid) := by
  unfold Playback.append_frame
  by_cases h : frame.guid = "" <;> simp [h]

/-- C10: `Agent.cleanup` leaves frames, action counter, guid, game id
and card id unchanged; its only state mutation is clearing the
single-use `_cleanup` flag, and its only other effect is appending the
summary entry to the recorder log. -/
theorem cleanup_only_clears_flag_and_records (st : AgentSt)
    (summary : JVal) :
    (Agent.cleanup st summary).frames = st.frames ∧
    (Agent.cleanup st summary).action_counter = st.action_counter ∧
    (Agent.cleanup st summary).guid = st.guid ∧
    (Agent.cleanup st summary).game_id = st.game_id ∧
    (Agent.cleanup st summary).card_id = st.card_id ∧
    (Agent.cleanup st summary).is_playback = st.is_playback ∧
    (Agent.cleanup st summary)._cleanup = false ∧
    ((Agent.cleanup st summary).recorder = st.recorder ∨
      ∃ log, st.recorder = some log ∧
        (Agent.cleanup st summary).recorder = some (log ++ [summary])) := by
  unfold Agent.cleanup
  rcases hc : st._cleanup <;> rcases hr : st.recorder <;>
    rcases hp : st.is_playback <;> simp [hc, hr, hp, Recorder.record]

/-- C2: `Agent.cleanup` is idempotent under the `_cleanup` guard: on an
agent with an armed guard and a recorder the first call records exactly
the one trailing summary entry, and a second call is the identity (no
recording, no state change). -/
theorem cleanup_idempotent (st : AgentSt) (s1 s2 : JVal)
    (log : List JVal) (h1 : st._cleanup = true)
    (h2 : st.recorder = some log) (h3 : st.is_playback = false) :
    (Agent.cleanup st s1).recorder = some (log ++ [s1]) ∧
    Agent.cleanup (Agent.cleanup st s1) s2 = Agent.cleanup st s1 := by
  unfold Agent.cleanup
  simp [h1, h2, h3, Recorder.record]

theorem cleanup_idempotent_witness :
    (Agent.cleanup (Agent.init "card" "game" true false)
        JVal.null).recorder = some ([] ++ [JVal.null]) ∧
    Agent.cleanup
        (Agent.cleanup (Agent.init "card" "game" true false) JVal.null)
        (JVal.num 1) =
      Agent.cleanup (Agent.init "card" "game" true false) JVal.null :=
  cleanup_idempotent (Agent.init "card" "game" true false) JVal.null
    (JVal.num 1) [] rfl rfl rfl

/-- C6: `Playback.is_done` is replay-length-bound: it is true exactly
when the action counter has reached the number of filtered recorded
entries, the filtered entries being those with a `data` payload
containing a `game_id`. -/
theorem playback_is_done_iff_replay_consumed (log : List JVal) (c : Nat) :
    Playback.is_done (Playback.filter_actions log) c = true ↔
      (log.filter (fun a => match a with
        | .obj kvs => match lookupKey kvs "data" with
            | some (.obj dkvs) => dkvs.any (fun p => p.1 == "game_id")
            | _ => false
        | _ => false)).length ≤ c := by
  unfold Playback.is_done Playback.filter_actions
  simp

theorem playback_is_done_iff_replay_consumed_witness :
    Playback.is_done
        (Playback.filter_actions
          [JVal.obj [("data", JVal.obj [("game_id", JVal.str "g")])],
           JVal.obj [("tokens", JVal.num 5)]]) 1 = true ↔
      ([JVal.obj [("data", JVal.obj [("game_id", JVal.str "g")])],
        JVal.obj [("tokens", JVal.num 5)]].filter (fun a => match a with
        | .obj kvs => match lookupKey kvs "data" with
            | some (.obj dkvs) => dkvs.any (fun p => p.1 == "game_id")
            | _ => false
        | _ => false)).length ≤ 1 :=
  playback_is_done_iff_replay_consumed
    [JVal.obj [("data", JVal.obj [("game_id", JVal.str "g")])],
     JVal.obj [("tokens", JVal.num 5)]] 1

/-- C4: when a response body that `do_action_request` hands back
without raising (the `error` membership check completes, i.e. the body
is a dict, list or string) fails `FrameData` schema validation,
`take_action` returns the Python `None`, and the loop body completes
without an exception, appends no frame, and still increments the
action counter. -/
theorem invalid_frame_skips_append (st : AgentSt) (body : JVal)
    (b : Bool) (hin : jsonContains "error" body = some b)
    (h : FrameData.model_validate body = none) :
    Agent.take_action body = some none ∧
    ∃ st', Agent.mainStep st body = some st' ∧
      st'.frames = st.frames ∧
      st'.action_counter = st.action_counter + 1 := by
  have hta : Agent.take_action body = some none := by
    unfold Agent.take_action Agent.do_action_request_json
    simp [hin, h]
  refine ⟨hta, ?_⟩
  unfold Agent.mainStep
  rw [hta]
  exact ⟨_, rfl, rfl, rfl⟩

theorem invalid_frame_skips_append_witness :
    Agent.take_action (JVal.obj [("score", JVal.str "x")]) = some none ∧
    ∃ st', Agent.mainStep (Agent.init "card" "game" false false)
        (JVal.obj [("score", JVal.str "x")]) = some st' ∧
      st'.frames = (Agent.init "card" "game" false false).frames ∧
      st'.action_counter =
        (Agent.init "card" "game" false false).action_counter + 1 :=
  invalid_frame_skips_append (Agent.init "card" "game" false false)
    (JVal.obj [("score", JVal.str "x")]) false rfl rfl

/-- C3: once a non-empty guid has been observed, a later frame never
resets it (an empty frame guid is ignored, a non-empty one replaces it,
so the stored guid stays non-empty), and every action request body
includes the stored guid. -/
theorem guid_sticky_and_always_submitted (st : AgentSt)
    (frame : FrameData) (a : GameAction) (h : st.guid ≠ "") :
    (Agent.append_frame st frame).guid =
      (if frame.guid = "" then st.guid else frame.guid) ∧
    (Agent.append_frame st frame).guid ≠ "" ∧
    lookupKey (Agent.do_action_request_data st a) "guid" =
      some (.str st.guid) := by
  refine ⟨append_frame_guid st frame, ?_, ?_⟩
  · rw [append_frame_guid st frame]
    by_cases hg : frame.guid = "" <;> simp [hg, h]
  · unfold Agent.do_action_request_data
    have hgb : (st.guid != "") = true := by simpa using h
    simp only [hgb, if_true]
    rcases hr : a.reasoning with _ | r
    · exact lookupKey_setKey_self _ "guid" (.str st.guid)
    · rw [lookupKey_setKey_ne _ "reasoning" "guid" r (by decide)]
      exact lookupKey_setKey_self _ "guid" (.str st.guid)

theorem guid_sticky_and_always_submitted_witness :
    ({ Agent.init "card" "game" false false with guid := "abc" } :
        AgentSt).guid ≠ "" ∧
    (Agent.append_frame
        { Agent.init "card" "game" false false with guid := "abc" }
        { score := 1 }).guid =
      (if ("" : String) = "" then "abc" else "") ∧
    (Agent.append_frame
        { Agent.init "card" "game" false false with guid := "abc" }
        { score := 1 }).guid ≠ "" ∧
    lookupKey
        (Agent.do_action_request_data
          { Agent.init "card" "game" false false with guid := "abc" }
          { id := .ACTION1 }) "guid" =
      some (.str "abc") := by
  have h : ({ Agent.init "card" "game" false false with guid := "abc" } :
      AgentSt).guid ≠ "" := by decide
  have hmain := guid_sticky_and_always_submitted
    { Agent.init "card" "game" false false with guid := "abc" }
    { score := 1 } { id := .ACTION1 } h
  exact ⟨h, hmain.1, hmain.2.1, hmain.2.2⟩

/-- C5: after a successful `push_message` the conversation buffer holds
at most `MESSAGE_LIMIT` messages, and for tool-calling models its first
message is never a dangling `tool` response. -/
theorem push_message_bounded_no_dangling_tool (cfg : LLMConfig)
    (messages : List Message) (message : Message) (out : List Message)
    (h1 : 1 ≤ cfg.MESSAGE_LIMIT)
    (h2 : LLM.push_message cfg messages message = some out) :
    out.length ≤ cfg.MESSAGE_LIMIT ∧
    (cfg.MODEL_REQUIRES_TOOLS = true →
      ∀ x ∈ out.head?, x.role ≠ "tool") := by
  unfold LLM.push_message at h2
  dsimp only at h2
  have key : ∀ ms2 : List Message, ms2.length ≤ cfg.MESSAGE_LIMIT →
      (if cfg.MODEL_REQUIRES_TOOLS then LLM.popToolLoop ms2
        else some ms2) = some out →
      out.length ≤ cfg.MESSAGE_LIMIT ∧
      (cfg.MODEL_REQUIRES_TOOLS = true →
        ∀ x ∈ out.head?, x.role ≠ "tool") := by
    intro ms2 hlen hout
    rcases hrt : cfg.MODEL_REQUIRES_TOOLS
    · rw [hrt] at hout
      simp only [Bool.false_eq_true, if_false, Option.some.injEq] at hout
      subst hout
      refine ⟨hlen, ?_⟩
      intro hc
      cases hc
    · rw [hrt] at hout
      simp only [if_true] at hout
      exact ⟨(popToolLoop_length_le ms2 out hout).trans hlen,
        fun _ => popToolLoop_head_role ms2 out hout⟩
  by_cases hlt : cfg.MESSAGE_LIMIT < (messages ++ [message]).length
  · rw [if_pos hlt] at h2
    refine key _ ?_ h2
    unfold LLM.pySliceLast
    have h0 : (cfg.MESSAGE_LIMIT == 0) = false := by
      simp only [beq_eq_false_iff_ne, ne_eq]
      omega
    rw [h0]
    simp only [Bool.false_eq_true, if_false, List.length_drop]
    omega
  · rw [if_neg hlt] at h2
    exact key _ (by omega) h2

theorem push_message_bounded_no_dangling_tool_witness :
    LLM.push_message
        { DO_OBSERVATION := true, MODEL_REQUIRES_TOOLS := true,
          MESSAGE_LIMIT := 2 }
        [{ role := "tool" }, { role := "user" }] { role := "assistant" } =
      some [{ role := "user" }, { role := "assistant" }] ∧
    ([{ role := "user" }, { role := "assistant" }] :
        List Message).length ≤ 2 ∧
    ∀ x ∈ ([{ role := "user" }, { role := "assistant" }] :
        List Message).head?, x.role ≠ "tool" := by
  have h := push_message_bounded_no_dangling_tool
    { DO_OBSERVATION := true, MODEL_REQUIRES_TOOLS := true,
      MESSAGE_LIMIT := 2 }
    [{ role := "tool" }, { role := "user" }] { role := "assistant" }
    [{ role := "user" }, { role := "assistant" }]
    (by decide) (by rfl)
  exact ⟨rfl, h.1, h.2 rfl⟩

/-- C9: `Random.choose_action` returns `RESET` exactly when the latest
state is `NOT_PLAYED` or `GAME_OVER`; in every other state it returns a
non-RESET action, and when that action is complex its payload holds
coordinates `x` and `y` each in `[0, 63]`. -/
theorem random_choose_action_reset_iff_and_bounds (game_id : String)
    (pick rx ry : Nat) (latest : FrameData) :
    ((Random.choose_action game_id pick rx ry latest).id = .RESET ↔
      (latest.state = .NOT_PLAYED ∨ latest.state = .GAME_OVER)) ∧
    ((Random.choose_action game_id pick rx ry latest).id.is_complex =
        true →
      ∃ xv yv : Int,
        lookupKey (Random.choose_action game_id pick rx ry
          latest).action_data "x" = some (.num xv) ∧
        lookupKey (Random.choose_action game_id pick rx ry
          latest).action_data "y" = some (.num yv) ∧
        0 ≤ xv ∧ xv ≤ 63 ∧ 0 ≤ yv ∧ yv ≤ 63) := by
  constructor
  · rw [random_choose_action_id]
    by_cases h : latest.state ∈ [GameState.NOT_PLAYED, GameState.GAME_OVER]
    · rw [if_pos h]
      simp only [List.mem_cons, List.mem_singleton, List.not_mem_nil,
        or_false] at h
      simpa using h
    · rw [if_neg h]
      constructor
      · intro hc
        exact absurd hc (nonReset_getD_ne _)
      · intro hc
        exact absurd (by simpa using hc) h
  · intro hc
    rw [random_choose_action_id] at hc
    by_cases h : latest.state ∈ [GameState.NOT_PLAYED, GameState.GAME_OVER]
    · rw [if_pos h] at hc
      exact absurd hc (by decide)
    · rw [if_neg h] at hc
      have h6 := (is_complex_iff _).mp hc
      rw [random_choose_action_complex_data game_id pick rx ry latest h h6]
      refine ⟨Int.ofNat (rx % 64), Int.ofNat (ry % 64), ?_, ?_, ?_, ?_,
        ?_, ?_⟩
      · simp [lookupKey]
      · simp [lookupKey]
      · simp only [Int.ofNat_eq_coe]
        omega
      · simp only [Int.ofNat_eq_coe]
        omega
      · simp only [Int.ofNat_eq_coe]
        omega
      · simp only [Int.ofNat_eq_coe]
        omega

theorem random_choose_action_bounds_witness :
    (Random.choose_action "game" 5 100 3
        { state := .IN_PROGRESS }).id ≠ .RESET ∧
    ∃ xv yv : Int,
      lookupKey (Random.choose_action "game" 5 100 3
        { state := .IN_PROGRESS }).action_data "x" = some (.num xv) ∧
      lookupKey (Random.choose_action "game" 5 100 3
        { state := .IN_PROGRESS }).action_data "y" = some (.num yv) ∧
      0 ≤ xv ∧ xv ≤ 63 ∧ 0 ≤ yv ∧ yv ≤ 63 := by
  have h := random_choose_action_reset_iff_and_bounds "game" 5 100 3
    { state := .IN_PROGRESS }
  constructor
  · intro hr
    rcases h.1.mp hr with h' | h' <;> exact absurd h' (by decide)
  · exact h.2 (by rfl)

/-- C8: for every built-in policy a fresh agent in state `NOT_PLAYED`
chooses `RESET` first: `Random.choose_action` returns `RESET` when the
latest state is `NOT_PLAYED`, and `LLM.choose_action` returns `RESET`
on its first turn (empty message buffer). -/
theorem first_turn_chooses_reset :
    (∀ (game_id : String) (pick rx ry : Nat) (latest : FrameData),
      latest.state = .NOT_PLAYED →
      (Random.choose_action game_id pick rx ry latest).id = .RESET) ∧
    (∀ (cfg : LLMConfig) (st : LLMSt) (latest : FrameData)
        (obs act : ChatResponse), st.messages = [] →
      ∃ p, LLM.choose_action cfg st latest obs act = some p ∧
        p.1.id = .RESET) := by
  constructor
  · intro game_id pick rx ry latest h
    rw [random_choose_action_id, if_pos (by simp [h])]
  · intro cfg st latest obs act hmsg
    unfold LLM.choose_action
    rw [hmsg]
    rcases hrt : cfg.MODEL_REQUIRES_TOOLS
    · simp only [List.length_nil, hrt, Bool.false_eq_true, if_false,
        if_true, Nat.zero_eq]
      rw [push_message_nil cfg
        { role := "user", content := LLM.build_user_prompt } (by decide)]
      simp only [Option.bind_eq_bind, Option.some_bind]
      rcases push_message_pair cfg
          { role := "user", content := LLM.build_user_prompt }
          { role := "assistant",
            function_call := some { name := "RESET",
                                    arguments := .parsed [] } }
          (by decide) (by decide) with h2 | h2 <;>
        rw [h2] <;>
        simp only [Option.some_bind] <;>
        exact ⟨_, rfl, rfl⟩
    · simp only [List.length_nil, hrt, if_true, Nat.zero_eq]
      rw [push_message_nil cfg
        { role := "user", content := LLM.build_user_prompt } (by decide)]
      simp only [Option.bind_eq_bind, Option.some_bind]
      rcases push_message_pair cfg
          { role := "user", content := LLM.build_user_prompt }
          { role := "assistant",
            tool_calls := [{ id := st._latest_tool_call_id,
                             function_name := ActionId.RESET.name,
                             arguments := .parsed [] }] }
          (by decide) (by rfl) with h2 | h2 <;>
        rw [h2] <;>
        simp only [Option.some_bind] <;>
        exact ⟨_, rfl, rfl⟩

theorem first_turn_chooses_reset_witness :
    (Random.choose_action "game" 0 0 0 {}).id = .RESET ∧
    ∃ p, LLM.choose_action {}
        { agent := Agent.init "card" "game" false false, messages := [],
          token_counter := 0, _latest_tool_call_id := "call_12345" }
        {} {} {} = some p ∧ p.1.id = .RESET :=
  ⟨first_turn_chooses_reset.1 "game" 0 0 0 {} rfl,
   first_turn_chooses_reset.2 {}
    { agent := Agent.init "card" "game" false false, messages := [],
      token_counter := 0, _latest_tool_call_id := "call_12345" }
    {} {} {} rfl⟩

/-- C1 counterexample: with the base `MAX_ACTIONS = 100`, a policy
whose `is_done` never triggers, and a server that answers every turn
with the dict body `score: "x"` (which passes the `error` membership
check but fails schema validation, so every turn completes without an
exception), `main` returns with `action_counter = 101`, exceeding
`MAX_ACTIONS`: the loop guard is `action_counter <= MAX_ACTIONS`, so
the body runs once more when the counter equals the bound and the
increment pushes it one past. -/
theorem main_counter_exceeds_max_counterexample :
    ∃ st', Agent.main 100 (fun _ _ => false) (fun _ _ => { id := .RESET })
        (fun _ _ => JVal.obj [("score", JVal.str "x")]) JVal.null
        (Agent.init "card" "game" false false) = some st' ∧
      st'.action_counter = 101 ∧ ¬ st'.action_counter ≤ 100 := by
  obtain ⟨st1, h1, h2⟩ := mainLoop_counter_exact 100
    (fun _ _ => { id := .RESET })
    (fun _ _ => JVal.obj [("score", JVal.str "x")]) (fun _ _ => rfl)
    101 (Agent.init "card" "game" false false) rfl (by decide)
  refine ⟨Agent.cleanup st1 JVal.null, ?_, ?_, ?_⟩
  · unfold Agent.main
    rw [h1]
  · rw [cleanup_action_counter]
    exact h2
  · rw [cleanup_action_counter, h2]
    omega

/-- C1 (amended): for every policy and environment, a run of `main`
started at `action_counter = 0` that returns (no exception escapes the
loop) ends with `action_counter` at most `MAX_ACTIONS + 1` (the claimed
bound `MAX_ACTIONS` is off by one). -/
theorem main_counter_le_max_plus_one (MAX : Nat)
    (d : List FrameData → FrameData → Bool)
    (ch : List FrameData → FrameData → GameAction)
    (env : Nat → GameAction → JVal) (summary : JVal) (st st' : AgentSt)
    (h : st.action_counter = 0)
    (hm : Agent.main MAX d ch env summary st = some st') :
    st'.action_counter ≤ MAX + 1 := by
  unfold Agent.main at hm
  rcases hml : Agent.mainLoop MAX d ch env st with _ | st1
  · rw [hml] at hm
    cases hm
  · rw [hml] at hm
    simp only [Option.some.injEq] at hm
    subst hm
    rw [cleanup_action_counter]
    exact mainLoop_counter_le MAX d ch env (MAX + 1 - st.action_counter)
      st rfl (by omega) st1 hml

theorem main_counter_le_max_plus_one_witness :
    ∃ st', Agent.main 2 (fun _ _ => false) (fun _ _ => { id := .RESET })
        (fun _ _ => JVal.obj [("score", JVal.str "x")]) JVal.null
        (Agent.init "card" "game" false false) = some st' ∧
      st'.action_counter ≤ 2 + 1 := by
  obtain ⟨st1, h1, h2⟩ := mainLoop_counter_exact 2
    (fun _ _ => { id := .RESET })
    (fun _ _ => JVal.obj [("score", JVal.str "x")]) (fun _ _ => rfl)
    3 (Agent.init "card" "game" false false) rfl (by decide)
  have hm : Agent.main 2 (fun _ _ => false) (fun _ _ => { id := .RESET })
      (fun _ _ => JVal.obj [("score", JVal.str "x")]) JVal.null
      (Agent.init "card" "game" false false) =
      some (Agent.cleanup st1 JVal.null) := by
    unfold Agent.main
    rw [h1]
  exact ⟨Agent.cleanup st1 JVal.null, hm,
    main_counter_le_max_plus_one 2 (fun _ _ => false)
      (fun _ _ => { id := .RESET })
      (fun _ _ => JVal.obj [("score", JVal.str "x")]) JVal.null
      (Agent.init "card" "game" false false)
      (Agent.cleanup st1 JVal.null) rfl hm⟩
